import Mathlib

/-!
Shallow embedding of the ImgGo example client code
(`examples/common/imggo_client.py` and
`examples/languages/python/error-handling.py`) and proofs about it.

Python dictionaries coming from `response.json()` are modelled as
association lists of `JValue`s; Python truthiness (`or`, `if x:`) is
modelled by `truthy`; `time.sleep` calls are recorded in traces instead
of being performed.  Backoff delays computed as `(2 ** attempt) * 0.5`
are modelled exactly in `ℚ` (powers of two times one half are exact in
IEEE floats for every attempt count the loop can reach).
-/

set_option maxHeartbeats 1000000

namespace ImgGo

/-- A JSON value as produced by `response.json()` in the Python code.
`num` covers the integral numbers the examples use. -/
inductive JValue : Type where
  | null : JValue
  | bool : Bool → JValue
  | num : Int → JValue
  | str : String → JValue
  | arr : List JValue → JValue
  | obj : List (String × JValue) → JValue

/-- A JSON object (Python `dict`): an association list of fields. -/
abbrev JObj : Type := List (String × JValue)

/-- Python `d.get(k)`: the value of field `k`, or `None` when absent.
(Also used to model `d[k]` at places where the code always receives the
field; a missing key there would raise `KeyError` in Python.) -/
def pyGet (o : JObj) (k : String) : JValue :=
  (o.lookup k).getD JValue.null

/-- Python `d.get(k, default)`. -/
def pyGetD (o : JObj) (k : String) (d : JValue) : JValue :=
  (o.lookup k).getD d

/-- Python truthiness of a JSON value: `None`, `False`, `0`, `""`,
`[]` and `{}` are falsy, everything else is truthy. -/
def truthy : JValue → Bool
  | .null => false
  | .bool b => b
  | .num n => decide (n ≠ 0)
  | .str s => decide (s ≠ "")
  | .arr xs => !xs.isEmpty
  | .obj fs => !fs.isEmpty

/-- Python `a or b`: `a` when `a` is truthy, else `b`. -/
def pyOr (a b : JValue) : JValue :=
  if truthy a then a else b

/-! ### Idempotency-key generation (`ImgGoClient.process_image`, line 69)

`idempotency_key = f"{Path(image_path).stem}-{int(time.time())}"`.
`pathlib.PurePath.name`/`.stem` are modelled character-for-character
after the CPython implementation: `name` is the part after the last
`'/'`; `stem` is `name[:i]` where `i = name.rfind('.')` when
`0 < i < len(name) - 1`, else `name` itself. -/

/-- Characters of the final path component (after the last `'/'`). -/
def pathNameChars (cs : List Char) : List Char :=
  cs.foldl (fun acc ch => if ch = '/' then [] else acc ++ [ch]) []

/-- Index of the last `'.'` in a list of characters, if any
(Python `name.rfind('.')` restricted to the found case). -/
def lastDotIdx (cs : List Char) : Option Nat :=
  (cs.enum.filterMap (fun p => if p.2 = '.' then some p.1 else none)).getLast?

/-- Python `PurePath(p).stem`. -/
def pathStem (p : String) : String :=
  let name := pathNameChars p.data
  match lastDotIdx name with
  | some i => if 0 < i ∧ i < name.length - 1 then String.mk (name.take i) else String.mk name
  | none => String.mk name

/-- The idempotency key `process_image` generates when the caller
supplies none: `f"{Path(image_path).stem}-{int(time.time())}"`. -/
def processImageKey (imagePath : String) (timestamp : Nat) : String :=
  pathStem imagePath ++ "-" ++ toString timestamp

/-! ### `ImgGoClient._make_request` (imggo_client.py, lines 200–258)

Each loop iteration performs `requests.request` followed by
`response.raise_for_status()` and `response.json()`.  From the retry
loop's point of view an iteration either yields a JSON body, or raises
a `requests.RequestException`: an `HTTPError` carrying the response
(4xx/5xx from `raise_for_status`), a `Timeout`, or a `ConnectionError`
(the latter two carry no response).  The environment is modelled as a
function from the attempt index to that iteration's result. -/

/-- A `requests.RequestException` as `_make_request` can catch it. -/
inductive ReqErr : Type where
  /-- `requests.HTTPError` from `raise_for_status`; carries the response
  status code and its `Retry-After` header when present. -/
  | http : Nat → Option Nat → ReqErr
  /-- `requests.Timeout` (no response attached). -/
  | timeout : ReqErr
  /-- `requests.ConnectionError` (no response attached). -/
  | conn : ReqErr
deriving DecidableEq

/-- What one iteration of the retry loop observes. -/
inductive AttemptResult : Type where
  /-- Request succeeded, `raise_for_status` passed, body parsed. -/
  | ok : JObj → AttemptResult
  /-- The iteration raised this `requests.RequestException`. -/
  | exn : ReqErr → AttemptResult

/-- The exception an attempt raised, if any. -/
def attemptErr : AttemptResult → Option ReqErr
  | .ok _ => none
  | .exn e => some e

/-- Line 249: `400 <= e.response.status_code < 500 and
e.response.status_code != 429` — errors `_make_request` refuses to
retry (only `http` errors carry a response). -/
def isClientErr : ReqErr → Bool
  | .http s _ => 400 ≤ s && s < 500 && s ≠ 429
  | _ => false

/-- A 5xx response or a timeout/connection error — the errors claim C1
quantifies over.  (An `ok` attempt is not such an error.) -/
def transientB : AttemptResult → Bool
  | .ok _ => false
  | .exn (.http s _) => 500 ≤ s && s < 600
  | .exn .timeout => true
  | .exn .conn => true

/-- Line 254: `wait_time = (2 ** attempt) * 0.5`, modelled exactly. -/
def backoff (attempt : Nat) : ℚ :=
  (2 : ℚ) ^ attempt * (1 / 2)

/-- How `_make_request` terminates. -/
inductive ReqOutcome : Type where
  /-- `return response.json()`. -/
  | success : JObj → ReqOutcome
  /-- `raise` / `raise last_exception` with this exception. -/
  | raised : ReqErr → ReqOutcome
  /-- Line 258 executed with `last_exception is None`: Python evaluates
  `raise None`, a `TypeError` — not an HTTP error at all. -/
  | raisedNone : ReqOutcome

/-- Observable behaviour of one `_make_request` call: how it ended, how
many HTTP requests it issued, and the `time.sleep` durations in order. -/
structure ReqTrace : Type where
  outcome : ReqOutcome
  requests : Nat
  sleeps : List ℚ

/-- The retry loop `for attempt in range(self.max_retries)` of
`_make_request`, as a function of the remaining iteration count
(`fuel`), the current attempt index, and `last_exception`. -/
def mkReqGo (resp : Nat → AttemptResult) (maxRetries : Nat) :
    Nat → Nat → Option ReqErr → ReqTrace
  | 0, _, last =>
      { outcome :=
          match last with
          | some e => .raised e
          | none => .raisedNone
        requests := 0
        sleeps := [] }
  | fuel + 1, attempt, _last =>
      match resp attempt with
      | .ok body => { outcome := .success body, requests := 1, sleeps := [] }
      | .exn e =>
          if isClientErr e then
            { outcome := .raised e, requests := 1, sleeps := [] }
          else
            let rest := mkReqGo resp maxRetries fuel (attempt + 1) (some e)
            { outcome := rest.outcome
              requests := rest.requests + 1
              sleeps :=
                if attempt < maxRetries - 1 then backoff attempt :: rest.sleeps
                else rest.sleeps }

/-- `ImgGoClient._make_request`: run the retry loop from attempt 0 with
`last_exception = None`. -/
def makeRequest (maxRetries : Nat) (resp : Nat → AttemptResult) : ReqTrace :=
  mkReqGo resp maxRetries maxRetries 0 none

/-! ### `upload_with_retry` (error-handling.py, lines 38–124)

Unlike `_make_request`, this function branches on the raw status code
itself (no `raise_for_status` before the branch) and honours the
`Retry-After` header on a 429.  One attempt either produces an HTTP
response (status code, optional parsed `Retry-After` header, JSON body)
or raises `requests.exceptions.Timeout` / `ConnectionError`. -/

/-- What one `requests.post` inside `upload_with_retry` observes. -/
inductive UpAttempt : Type where
  | resp : Nat → Option Nat → JObj → UpAttempt
  | timeoutExc : UpAttempt
  | connExc : UpAttempt

/-- `d.get(k, default)` on a `JValue` known to be an object; any other
shape would raise `AttributeError` in Python (never exercised here). -/
def pyGetObjD (v : JValue) (k : String) (d : JValue) : JValue :=
  match v with
  | .obj fs => (fs.lookup k).getD d
  | _ => d

/-- Line 96: `response.json().get("error", {}).get("message", "Unknown error")`. -/
def clientErrMsg (body : JObj) : JValue :=
  pyGetObjD (pyGetD body "error" (.obj [])) "message" (.str "Unknown error")

/-- How `upload_with_retry` terminates. -/
inductive UpOutcome : Type where
  /-- Reached line 107: hands `job_id` (`data["data"]["job_id"]`) to
  `poll_with_retry` and returns its result; the poll itself is outside
  this function's control flow. -/
  | pollsJob : JValue → UpOutcome
  /-- Line 97: `raise ImgGoError(f"Client error: {error_msg}")`. -/
  | clientError : JValue → UpOutcome
  /-- Line 115: `raise ImgGoError("Max retries exceeded due to timeouts")`. -/
  | timeoutsExhausted : UpOutcome
  /-- Line 122: `raise ImgGoError("Max retries exceeded due to connection errors")`. -/
  | connExhausted : UpOutcome
  /-- Line 124: `raise ImgGoError("Max retries exceeded")`. -/
  | retriesExhausted : UpOutcome

/-- Observable behaviour of one `upload_with_retry` call; sleeps are in
whole seconds (`Retry-After` values and `2 ** attempt` are both ints). -/
structure UpTrace : Type where
  outcome : UpOutcome
  requests : Nat
  sleeps : List Nat

/-- The loop `for attempt in range(max_retries)` of `upload_with_retry`. -/
def uploadGo (att : Nat → UpAttempt) (maxRetries : Nat) :
    Nat → Nat → UpTrace
  | 0, _ => { outcome := .retriesExhausted, requests := 0, sleeps := [] }
  | fuel + 1, attempt =>
      match att attempt with
      | .resp status retryAfterHdr body =>
          if status = 429 then
            -- line 82: `int(response.headers.get("Retry-After", 60))`
            let retryAfter := retryAfterHdr.getD 60
            let rest := uploadGo att maxRetries fuel (attempt + 1)
            { outcome := rest.outcome
              requests := rest.requests + 1
              sleeps := retryAfter :: rest.sleeps }
          else if 500 ≤ status then
            let rest := uploadGo att maxRetries fuel (attempt + 1)
            { outcome := rest.outcome
              requests := rest.requests + 1
              sleeps := 2 ^ attempt :: rest.sleeps }
          else if 400 ≤ status then
            { outcome := .clientError (clientErrMsg body), requests := 1, sleeps := [] }
          else
            { outcome := .pollsJob (pyGetObjD (pyGet body "data") "job_id" .null)
              requests := 1
              sleeps := [] }
      | .timeoutExc =>
          if attempt < maxRetries - 1 then
            let rest := uploadGo att maxRetries fuel (attempt + 1)
            { outcome := rest.outcome
              requests := rest.requests + 1
              sleeps := 2 ^ attempt :: rest.sleeps }
          else
            { outcome := .timeoutsExhausted, requests := 1, sleeps := [] }
      | .connExc =>
          if attempt < maxRetries - 1 then
            let rest := uploadGo att maxRetries fuel (attempt + 1)
            { outcome := rest.outcome
              requests := rest.requests + 1
              sleeps := 2 ^ attempt :: rest.sleeps }
          else
            { outcome := .connExhausted, requests := 1, sleeps := [] }

/-- `upload_with_retry image_path pattern_id max_retries`, abstracted
over the per-attempt HTTP behaviour. -/
def uploadWithRetry (maxRetries : Nat) (att : Nat → UpAttempt) : UpTrace :=
  uploadGo att maxRetries maxRetries 0

/-- An attempt whose outcome makes `upload_with_retry` go on to the next
iteration (429 and 5xx always do; timeout/connection errors do whenever
the attempt is not the last one). -/
def upRetryB : UpAttempt → Bool
  | .resp s _ _ => s = 429 || 500 ≤ s
  | .timeoutExc => true
  | .connExc => true

/-! ### `ImgGoClient.wait_for_job` (imggo_client.py, lines 156–198)

The job snapshots returned by successive `get_job_status` calls are a
function from the attempt index to a `JObj`.  The optional
`progress_callback` (a Python `Callable[[str, int], None]`) is modelled
as an optional pure function whose per-iteration applications are
collected in a trace. -/

/-- Line 186: `status in ("completed", "succeeded")` for
`status = job_status["status"]` (a non-string status compares unequal). -/
def isSuccessStatus (js : JObj) : Bool :=
  match pyGet js "status" with
  | .str s => s = "completed" || s = "succeeded"
  | _ => false

/-- Line 190: `status == "failed"`. -/
def isFailedStatus (js : JObj) : Bool :=
  match pyGet js "status" with
  | .str s => s = "failed"
  | _ => false

/-- A snapshot on which the poll loop stops. -/
def isTerminalStatus (js : JObj) : Bool :=
  isSuccessStatus js || isFailedStatus js

/-- Line 188: `job_status.get("manifest") or job_status.get("result")`. -/
def successPayload (js : JObj) : JValue :=
  pyOr (pyGet js "manifest") (pyGet js "result")

/-- Line 191: `job_status.get("error", "Unknown error")`. -/
def failError (js : JObj) : JValue :=
  pyGetD js "error" (.str "Unknown error")

/-- How `wait_for_job` terminates. -/
inductive WaitOutcome : Type where
  /-- Line 188: returns the payload. -/
  | success : JValue → WaitOutcome
  /-- Line 192: `raise RuntimeError(f"Job {job_id} failed: {error}")`,
  carrying the server-provided error value. -/
  | jobFailed : JValue → WaitOutcome
  /-- Lines 196–198: `raise TimeoutError(...)`. -/
  | timedOut : WaitOutcome

/-- Observable behaviour of one `wait_for_job` call: the final outcome,
the number of `get_job_status` polls performed, and the collected
results of the `progress_callback` applications, one per iteration. -/
structure WaitResult (α : Type) : Type where
  outcome : WaitOutcome
  polls : Nat
  cbTrace : List α

/-- Lines 183–184: `if progress_callback: progress_callback(status,
attempt + 1)` — the (zero or one) callback applications an iteration
performs, as recorded values. -/
def cbApp {α : Type} (cb : Option (JValue → Nat → α)) (js : JObj)
    (attempt : Nat) : List α :=
  match cb with
  | some f => [f (pyGet js "status") (attempt + 1)]
  | none => []

/-- The loop `for attempt in range(max_attempts)` of `wait_for_job`.
Each iteration polls, invokes the callback (if any) with the raw status
value and `attempt + 1`, then branches on the status. -/
def waitGo {α : Type} (snap : Nat → JObj) (cb : Option (JValue → Nat → α)) :
    Nat → Nat → WaitResult α
  | 0, _ => { outcome := .timedOut, polls := 0, cbTrace := [] }
  | fuel + 1, attempt =>
      let js := snap attempt
      let tr : List α := cbApp cb js attempt
      if isSuccessStatus js then
        { outcome := .success (successPayload js), polls := 1, cbTrace := tr }
      else if isFailedStatus js then
        { outcome := .jobFailed (failError js), polls := 1, cbTrace := tr }
      else
        let rest := waitGo snap cb fuel (attempt + 1)
        { outcome := rest.outcome
          polls := rest.polls + 1
          cbTrace := tr ++ rest.cbTrace }

/-- `ImgGoClient.wait_for_job job_id max_attempts wait_seconds
progress_callback`, abstracted over the polled snapshots. -/
def waitForJob {α : Type} (snap : Nat → JObj) (maxAttempts : Nat)
    (cb : Option (JValue → Nat → α)) : WaitResult α :=
  waitGo snap cb maxAttempts 0

/-! ### Concrete environments used to instantiate the theorems -/

/-- Every attempt raises `requests.Timeout`. -/
def respAllTimeout : Nat → AttemptResult := fun _ => .exn .timeout

/-- First attempt times out, every later attempt gets a 404 response. -/
def respClientErr : Nat → AttemptResult := fun n =>
  if n = 0 then .exn .timeout else .exn (.http 404 none)

/-- First attempt gets a 429 response with `Retry-After: 60`, later
attempts succeed. -/
def resp429 : Nat → AttemptResult := fun n =>
  if n = 0 then .exn (.http 429 (some 60)) else .ok []

/-- `upload_with_retry` attempts: a 429 with `Retry-After: 7`, then a
successful response. -/
def att429 : Nat → UpAttempt := fun n =>
  if n = 0 then .resp 429 (some 7) []
  else .resp 200 none [("data", .obj [("job_id", .str "j1")])]

/-- A succeeded snapshot whose `manifest` field is present but holds the
empty object (falsy in Python), next to a non-empty `result`. -/
def snapEmptyManifest : Nat → JObj := fun _ =>
  [("status", .str "succeeded"), ("manifest", .obj []),
   ("result", .obj [("total", .num 42)])]

/-- `processing`, then succeeded with a non-empty `manifest` and a
`result` both present. -/
def snapManifestW : Nat → JObj := fun n =>
  if n = 0 then [("status", .str "processing")]
  else [("status", .str "succeeded"), ("manifest", .obj [("k", .num 1)]),
        ("result", .str "old")]

/-- `queued`, then failed with a server-provided error message. -/
def snapFailedW : Nat → JObj := fun n =>
  if n = 0 then [("status", .str "queued")]
  else [("status", .str "failed"), ("error", .str "bad image")]

/-- Every poll returns `processing`. -/
def snapProcessing : Nat → JObj := fun _ => [("status", .str "processing")]

/-- `queued`, then `completed` (the older terminal-success alias). -/
def snapCompletedW : Nat → JObj := fun n =>
  if n = 0 then [("status", .str "queued")]
  else [("status", .str "completed"), ("result", .str "data")]

/-- An attempt on which the `except` block of `_make_request` reaches
the backoff code instead of re-raising: a `RequestException` that is
not a non-429 4xx `HTTPError`. -/
def retriedB : AttemptResult → Bool
  | .ok _ => false
  | .exn e => !isClientErr e

/-! ## Lemmas about `_make_request` -/

theorem retried_exn {a : AttemptResult} (h : retriedB a = true) :
    ∃ e, a = .exn e ∧ isClientErr e = false ∧ attemptErr a = some e := by
  cases a with
  | ok _ => simp [retriedB] at h
  | exn e =>
      refine ⟨e, rfl, ?_, rfl⟩
      simpa [retriedB] using h

theorem transientB_retried {a : AttemptResult} (h : transientB a = true) :
    retriedB a = true := by
  cases a with
  | ok _ => simp [transientB] at h
  | exn e =>
      cases e with
      | http s ra =>
          simp only [transientB, Bool.and_eq_true, decide_eq_true_eq] at h
          simp only [retriedB, isClientErr, Bool.not_eq_true']
          simp only [Bool.and_eq_false_iff, decide_eq_false_iff_not]
          omega
      | timeout => rfl
      | conn => rfl

theorem backoff_lt (a : Nat) : backoff a < backoff (a + 1) := by
  unfold backoff
  have h : (2 : ℚ) ^ a < 2 ^ (a + 1) :=
    pow_lt_pow_right₀ (by norm_num) (Nat.lt_succ_self a)
  have hhalf : (0 : ℚ) < 1 / 2 := by norm_num
  exact mul_lt_mul_of_pos_right h hhalf

theorem mkReqGo_zero (resp : Nat → AttemptResult) (m attempt : Nat)
    (last : Option ReqErr) :
    mkReqGo resp m 0 attempt last =
      { outcome :=
          match last with
          | some e => .raised e
          | none => .raisedNone
        requests := 0
        sleeps := [] } := rfl

theorem mkReqGo_succ_ok (resp : Nat → AttemptResult)
    (m fuel attempt : Nat) (last : Option ReqErr) (body : JObj)
    (he : resp attempt = .ok body) :
    mkReqGo resp m (fuel + 1) attempt last =
      { outcome := .success body, requests := 1, sleeps := [] } := by
  rw [mkReqGo, he]

theorem mkReqGo_succ_client (resp : Nat → AttemptResult)
    (m fuel attempt : Nat) (last : Option ReqErr) (e : ReqErr)
    (he : resp attempt = .exn e) (hce : isClientErr e = true) :
    mkReqGo resp m (fuel + 1) attempt last =
      { outcome := .raised e, requests := 1, sleeps := [] } := by
  rw [mkReqGo, he]
  simp [hce]

theorem mkReqGo_succ_exn (resp : Nat → AttemptResult)
    (m fuel attempt : Nat) (last : Option ReqErr) (e : ReqErr)
    (he : resp attempt = .exn e) (hce : isClientErr e = false) :
    mkReqGo resp m (fuel + 1) attempt last =
      { outcome := (mkReqGo resp m fuel (attempt + 1) (some e)).outcome
        requests := (mkReqGo resp m fuel (attempt + 1) (some e)).requests + 1
        sleeps :=
          if attempt < m - 1 then
            backoff attempt :: (mkReqGo resp m fuel (attempt + 1) (some e)).sleeps
          else (mkReqGo resp m fuel (attempt + 1) (some e)).sleeps } := by
  rw [mkReqGo, he]
  simp [hce]

/-- Behaviour of the retry loop when every remaining attempt fails with
a retried error: one request per iteration, one backoff sleep per
iteration except the last, sleeps strictly increasing and starting at
`backoff attempt`, and the final `raise` re-raising the last error. -/
theorem mkReqGo_retried (resp : Nat → AttemptResult) (m : Nat) :
    ∀ fuel attempt last, attempt + fuel = m →
      (∀ j, j < fuel → retriedB (resp (attempt + j)) = true) →
      (mkReqGo resp m fuel attempt last).requests = fuel ∧
      (mkReqGo resp m fuel attempt last).sleeps.length = fuel - 1 ∧
      List.Chain' (· < ·) (mkReqGo resp m fuel attempt last).sleeps ∧
      ((mkReqGo resp m fuel attempt last).sleeps = [] ∨
        (mkReqGo resp m fuel attempt last).sleeps.head? = some (backoff attempt)) ∧
      (fuel = 0 →
        (mkReqGo resp m fuel attempt last).outcome =
          (match last with
           | some e => ReqOutcome.raised e
           | none => ReqOutcome.raisedNone)) ∧
      (∀ g e, fuel = g + 1 → attemptErr (resp (attempt + g)) = some e →
        (mkReqGo resp m fuel attempt last).outcome = ReqOutcome.raised e) := by
  intro fuel
  induction fuel with
  | zero =>
      intro attempt last _ _
      exact ⟨rfl, rfl, List.chain'_nil, Or.inl rfl, fun _ => rfl,
        fun g e hg => by omega⟩
  | succ f ih =>
      intro attempt last hm hr
      have h0 : retriedB (resp attempt) = true := by
        have := hr 0 (Nat.succ_pos f)
        simpa using this
      obtain ⟨e, he, hce, hae⟩ := retried_exn h0
      have hm' : (attempt + 1) + f = m := by omega
      have hr' : ∀ j, j < f → retriedB (resp (attempt + 1 + j)) = true := by
        intro j hj
        have := hr (j + 1) (by omega)
        rwa [show attempt + (j + 1) = attempt + 1 + j from by omega] at this
      obtain ⟨ihreq, ihlen, ihchain, ihhead, ihz, ihs⟩ :=
        ih (attempt + 1) (some e) hm' hr'
      rw [mkReqGo_succ_exn resp m f attempt last e he hce]
      refine ⟨by simpa using ihreq, ?_, ?_, ?_, fun h => by omega, ?_⟩
      · -- length
        cases f with
        | zero =>
            rw [if_neg (by omega)]
            simp [mkReqGo_zero]
        | succ g =>
            rw [if_pos (by omega)]
            simp only [List.length_cons, ihlen]
            omega
      · -- strictly increasing
        cases f with
        | zero =>
            rw [if_neg (by omega)]
            simp [mkReqGo_zero]
        | succ g =>
            rw [if_pos (by omega)]
            rw [List.chain'_cons']
            refine ⟨?_, ihchain⟩
            intro y hy
            rcases ihhead with hnil | hhead
            · rw [hnil] at hy
              simp at hy
            · rw [hhead] at hy
              simp only [Option.mem_def, Option.some.injEq] at hy
              rw [← hy]
              exact backoff_lt attempt
      · -- head of the sleeps
        cases f with
        | zero =>
            rw [if_neg (by omega)]
            exact Or.inl (by simp [mkReqGo_zero])
        | succ g =>
            rw [if_pos (by omega)]
            exact Or.inr rfl
      · -- outcome raises the error of the last attempt
        intro g e' hg hae'
        have hae2 : attemptErr (resp (attempt + f)) = some e' := by
          rwa [show g = f from by omega] at hae'
        clear hg hae'
        cases f with
        | zero =>
            simp only [Nat.add_zero] at hae2
            rw [hae] at hae2
            obtain rfl : e = e' := by
              injection hae2
            simp [mkReqGo_zero]
        | succ g' =>
            have hae'' : attemptErr (resp (attempt + 1 + g')) = some e' := by
              rwa [show attempt + (g' + 1) = attempt + 1 + g' from by omega] at hae2
            exact ihs g' e' rfl hae''

/-- Behaviour of the retry loop when the first `k` attempts fail with
retried errors and attempt `k` raises a non-retried client error: the
error is re-raised at once, after `k + 1` requests and with only the
`k` sleeps of the earlier iterations. -/
theorem mkReqGo_client (resp : Nat → AttemptResult) (m : Nat) (e : ReqErr)
    (hce : isClientErr e = true) :
    ∀ k fuel attempt last, k < fuel → attempt + fuel = m →
      (∀ j, j < k → retriedB (resp (attempt + j)) = true) →
      resp (attempt + k) = .exn e →
      (mkReqGo resp m fuel attempt last).outcome = ReqOutcome.raised e ∧
      (mkReqGo resp m fuel attempt last).requests = k + 1 ∧
      (mkReqGo resp m fuel attempt last).sleeps.length = k := by
  intro k
  induction k with
  | zero =>
      intro fuel attempt last hk _ _ he
      cases fuel with
      | zero => omega
      | succ f =>
          rw [Nat.add_zero] at he
          rw [mkReqGo_succ_client resp m f attempt last e he hce]
          exact ⟨rfl, rfl, rfl⟩
  | succ kk ih =>
      intro fuel attempt last hk hm hr he
      cases fuel with
      | zero => omega
      | succ f =>
          have h0 : retriedB (resp attempt) = true := by
            have := hr 0 (Nat.succ_pos kk)
            simpa using this
          obtain ⟨e0, he0, hce0, _⟩ := retried_exn h0
          rw [mkReqGo_succ_exn resp m f attempt last e0 he0 hce0]
          have hr' : ∀ j, j < kk → retriedB (resp (attempt + 1 + j)) = true := by
            intro j hj
            have := hr (j + 1) (by omega)
            rwa [show attempt + (j + 1) = attempt + 1 + j from by omega] at this
          have he' : resp (attempt + 1 + kk) = .exn e := by
            rwa [show attempt + (kk + 1) = attempt + 1 + kk from by omega] at he
          obtain ⟨iho, ihr, ihs⟩ :=
            ih f (attempt + 1) (some e0) (by omega) (by omega) hr' he'
          refine ⟨iho, by rw [ihr], ?_⟩
          rw [if_pos (by omega)]
          simp only [List.length_cons, ihs]

/-! ## Lemmas about `upload_with_retry` -/

theorem uploadGo_succ_429 (att : Nat → UpAttempt) (m fuel attempt : Nat)
    (ra : Option Nat) (body : JObj) (h : att attempt = .resp 429 ra body) :
    uploadGo att m (fuel + 1) attempt =
      { outcome := (uploadGo att m fuel (attempt + 1)).outcome
        requests := (uploadGo att m fuel (attempt + 1)).requests + 1
        sleeps := ra.getD 60 :: (uploadGo att m fuel (attempt + 1)).sleeps } := by
  simp only [uploadGo, h]
  simp

theorem uploadGo_succ_5xx (att : Nat → UpAttempt) (m fuel attempt s : Nat)
    (ra : Option Nat) (body : JObj) (h : att attempt = .resp s ra body)
    (h5 : 500 ≤ s) :
    uploadGo att m (fuel + 1) attempt =
      { outcome := (uploadGo att m fuel (attempt + 1)).outcome
        requests := (uploadGo att m fuel (attempt + 1)).requests + 1
        sleeps := 2 ^ attempt :: (uploadGo att m fuel (attempt + 1)).sleeps } := by
  simp only [uploadGo, h]
  rw [if_neg (by omega), if_pos h5]

theorem uploadGo_succ_timeout (att : Nat → UpAttempt) (m fuel attempt : Nat)
    (h : att attempt = .timeoutExc) (hlt : attempt < m - 1) :
    uploadGo att m (fuel + 1) attempt =
      { outcome := (uploadGo att m fuel (attempt + 1)).outcome
        requests := (uploadGo att m fuel (attempt + 1)).requests + 1
        sleeps := 2 ^ attempt :: (uploadGo att m fuel (attempt + 1)).sleeps } := by
  simp only [uploadGo, h]
  rw [if_pos hlt]

theorem uploadGo_succ_conn (att : Nat → UpAttempt) (m fuel attempt : Nat)
    (h : att attempt = .connExc) (hlt : attempt < m - 1) :
    uploadGo att m (fuel + 1) attempt =
      { outcome := (uploadGo att m fuel (attempt + 1)).outcome
        requests := (uploadGo att m fuel (attempt + 1)).requests + 1
        sleeps := 2 ^ attempt :: (uploadGo att m fuel (attempt + 1)).sleeps } := by
  simp only [uploadGo, h]
  rw [if_pos hlt]

/-- Any iteration of the upload loop performs at least one request. -/
theorem uploadGo_requests_pos (att : Nat → UpAttempt) (m : Nat) :
    ∀ fuel attempt, 1 ≤ fuel → 1 ≤ (uploadGo att m fuel attempt).requests := by
  intro fuel attempt hf
  cases fuel with
  | zero => omega
  | succ f =>
      cases ha : att attempt with
      | resp s ra body =>
          simp only [uploadGo, ha]
          split
          · simp
          · split
            · simp
            · split
              · simp
              · simp
      | timeoutExc =>
          simp only [uploadGo, ha]
          split
          · simp
          · simp
      | connExc =>
          simp only [uploadGo, ha]
          split
          · simp
          · simp

/-- Behaviour of `upload_with_retry` when the first `k` iterations hit
retried responses while more iterations remain: each contributes one
request and one sleep, and the sleep following a 429 at iteration `k`
is exactly the `Retry-After` hint (default 60). -/
theorem uploadGo_retryAfter (att : Nat → UpAttempt) (m : Nat) :
    ∀ k fuel attempt, k + 1 < fuel → attempt + fuel = m →
      (∀ j, j < k → upRetryB (att (attempt + j)) = true) →
      ∀ ra body, att (attempt + k) = .resp 429 ra body →
        (uploadGo att m fuel attempt).sleeps.get? k = some (ra.getD 60) ∧
        k + 2 ≤ (uploadGo att m fuel attempt).requests := by
  intro k
  induction k with
  | zero =>
      intro fuel attempt hk _ _ ra body h429
      cases fuel with
      | zero => omega
      | succ f =>
          rw [Nat.add_zero] at h429
          rw [uploadGo_succ_429 att m f attempt ra body h429]
          have hpos := uploadGo_requests_pos att m f (attempt + 1) (by omega)
          refine ⟨rfl, ?_⟩
          show 0 + 2 ≤ (uploadGo att m f (attempt + 1)).requests + 1
          omega
  | succ kk ih =>
      intro fuel attempt hk hm hr ra body h429
      cases fuel with
      | zero => omega
      | succ f =>
          have h0 : upRetryB (att attempt) = true := by
            have := hr 0 (Nat.succ_pos kk)
            simpa using this
          have hr' : ∀ j, j < kk → upRetryB (att (attempt + 1 + j)) = true := by
            intro j hj
            have := hr (j + 1) (by omega)
            rwa [show attempt + (j + 1) = attempt + 1 + j from by omega] at this
          have h429' : att (attempt + 1 + kk) = .resp 429 ra body := by
            rwa [show attempt + (kk + 1) = attempt + 1 + kk from by omega] at h429
          obtain ⟨ihget, ihreq⟩ :=
            ih f (attempt + 1) (by omega) (by omega) hr' ra body h429'
          have step :
              (uploadGo att m (f + 1) attempt).sleeps.get? (kk + 1) =
                  (uploadGo att m f (attempt + 1)).sleeps.get? kk ∧
                (uploadGo att m (f + 1) attempt).requests =
                  (uploadGo att m f (attempt + 1)).requests + 1 := by
            cases ha : att attempt with
            | resp s ra0 body0 =>
                rw [ha] at h0
                simp only [upRetryB, Bool.or_eq_true, decide_eq_true_eq] at h0
                rcases h0 with h0 | h0
                · rw [uploadGo_succ_429 att m f attempt ra0 body0 (h0 ▸ ha)]
                  exact ⟨rfl, rfl⟩
                · rw [uploadGo_succ_5xx att m f attempt s ra0 body0 ha h0]
                  exact ⟨rfl, rfl⟩
            | timeoutExc =>
                rw [uploadGo_succ_timeout att m f attempt ha (by omega)]
                exact ⟨rfl, rfl⟩
            | connExc =>
                rw [uploadGo_succ_conn att m f attempt ha (by omega)]
                exact ⟨rfl, rfl⟩
          rw [step.1, step.2]
          exact ⟨ihget, by omega⟩

/-! ## Lemmas about `wait_for_job` -/

theorem isSuccessStatus_of_failed {js : JObj} (h : isFailedStatus js = true) :
    isSuccessStatus js = false := by
  unfold isFailedStatus at h
  unfold isSuccessStatus
  cases hv : pyGet js "status" with
  | str s =>
      rw [hv] at h
      simp only [decide_eq_true_eq] at h
      subst h
      decide
  | null => rfl
  | bool b => rfl
  | num n => rfl
  | arr xs => rfl
  | obj fs => rfl

theorem isTerminal_of_success {js : JObj} (h : isSuccessStatus js = true) :
    isTerminalStatus js = true := by
  unfold isTerminalStatus
  rw [h]
  rfl

theorem isTerminal_of_failed {js : JObj} (h : isFailedStatus js = true) :
    isTerminalStatus js = true := by
  unfold isTerminalStatus
  rw [h]
  simp

theorem not_terminal_split {js : JObj} (h : isTerminalStatus js = false) :
    isSuccessStatus js = false ∧ isFailedStatus js = false := by
  unfold isTerminalStatus at h
  exact ⟨by rcases Bool.or_eq_false_iff.mp h with ⟨h1, _⟩; exact h1,
    by rcases Bool.or_eq_false_iff.mp h with ⟨_, h2⟩; exact h2⟩

theorem isSuccessStatus_of_alias {js : JObj}
    (h : pyGet js "status" = .str "completed" ∨ pyGet js "status" = .str "succeeded") :
    isSuccessStatus js = true := by
  unfold isSuccessStatus
  rcases h with h | h <;> rw [h] <;> decide

theorem waitGo_succ_success {α : Type} (snap : Nat → JObj)
    (cb : Option (JValue → Nat → α)) (fuel attempt : Nat)
    (hs : isSuccessStatus (snap attempt) = true) :
    waitGo snap cb (fuel + 1) attempt =
      { outcome := .success (successPayload (snap attempt))
        polls := 1
        cbTrace := cbApp cb (snap attempt) attempt } := by
  simp only [waitGo, hs]
  simp

theorem waitGo_succ_failed {α : Type} (snap : Nat → JObj)
    (cb : Option (JValue → Nat → α)) (fuel attempt : Nat)
    (hns : isSuccessStatus (snap attempt) = false)
    (hf : isFailedStatus (snap attempt) = true) :
    waitGo snap cb (fuel + 1) attempt =
      { outcome := .jobFailed (failError (snap attempt))
        polls := 1
        cbTrace := cbApp cb (snap attempt) attempt } := by
  simp only [waitGo, hns, hf]
  simp

theorem waitGo_succ_cont {α : Type} (snap : Nat → JObj)
    (cb : Option (JValue → Nat → α)) (fuel attempt : Nat)
    (hns : isSuccessStatus (snap attempt) = false)
    (hnf : isFailedStatus (snap attempt) = false) :
    waitGo snap cb (fuel + 1) attempt =
      { outcome := (waitGo snap cb fuel (attempt + 1)).outcome
        polls := (waitGo snap cb fuel (attempt + 1)).polls + 1
        cbTrace :=
          cbApp cb (snap attempt) attempt ++
            (waitGo snap cb fuel (attempt + 1)).cbTrace } := by
  simp only [waitGo, hns, hnf]
  simp

/-- When the first terminal snapshot sits at offset `i`, the poll loop
returns/raises from snapshot `i` after exactly `i + 1` polls. -/
theorem waitGo_first_terminal {α : Type} (snap : Nat → JObj)
    (cb : Option (JValue → Nat → α)) :
    ∀ i fuel attempt, i < fuel →
      (∀ j, j < i → isTerminalStatus (snap (attempt + j)) = false) →
      ((isSuccessStatus (snap (attempt + i)) = true →
          (waitGo snap cb fuel attempt).outcome =
            .success (successPayload (snap (attempt + i)))) ∧
       (isFailedStatus (snap (attempt + i)) = true →
          (waitGo snap cb fuel attempt).outcome =
            .jobFailed (failError (snap (attempt + i)))) ∧
       (isTerminalStatus (snap (attempt + i)) = true →
          (waitGo snap cb fuel attempt).polls = i + 1)) := by
  intro i
  induction i with
  | zero =>
      intro fuel attempt hi _
      cases fuel with
      | zero => omega
      | succ f =>
          simp only [Nat.add_zero]
          refine ⟨?_, ?_, ?_⟩
          · intro hs
            rw [waitGo_succ_success snap cb f attempt hs]
          · intro hf
            rw [waitGo_succ_failed snap cb f attempt
              (isSuccessStatus_of_failed hf) hf]
          · intro ht
            by_cases hs : isSuccessStatus (snap attempt) = true
            · rw [waitGo_succ_success snap cb f attempt hs]
            · have hf : isFailedStatus (snap attempt) = true := by
                unfold isTerminalStatus at ht
                rcases Bool.or_eq_true_iff.mp ht with h | h
                · exact absurd h hs
                · exact h
              rw [waitGo_succ_failed snap cb f attempt
                (Bool.not_eq_true _ ▸ hs) hf]
  | succ ii ih =>
      intro fuel attempt hi hpre
      cases fuel with
      | zero => omega
      | succ f =>
          have h0 : isTerminalStatus (snap attempt) = false := by
            have := hpre 0 (Nat.succ_pos ii)
            simpa using this
          obtain ⟨hns, hnf⟩ := not_terminal_split h0
          rw [waitGo_succ_cont snap cb f attempt hns hnf]
          have hpre' : ∀ j, j < ii → isTerminalStatus (snap (attempt + 1 + j)) = false := by
            intro j hj
            have := hpre (j + 1) (by omega)
            rwa [show attempt + (j + 1) = attempt + 1 + j from by omega] at this
          obtain ⟨ihs, ihf, ihp⟩ := ih f (attempt + 1) (by omega) hpre'
          have hidx : attempt + (ii + 1) = attempt + 1 + ii := by omega
          rw [hidx]
          exact ⟨fun hs => ihs hs, fun hf => ihf hf,
            fun ht => by rw [ihp ht]⟩

/-- When no snapshot within the budget is terminal, the loop exhausts
all `fuel` polls and times out. -/
theorem waitGo_no_terminal {α : Type} (snap : Nat → JObj)
    (cb : Option (JValue → Nat → α)) :
    ∀ fuel attempt,
      (∀ j, j < fuel → isTerminalStatus (snap (attempt + j)) = false) →
      (waitGo snap cb fuel attempt).outcome = .timedOut ∧
      (waitGo snap cb fuel attempt).polls = fuel := by
  intro fuel
  induction fuel with
  | zero => intro attempt _; exact ⟨rfl, rfl⟩
  | succ f ih =>
      intro attempt hpre
      have h0 : isTerminalStatus (snap attempt) = false := by
        have := hpre 0 (Nat.succ_pos f)
        simpa using this
      obtain ⟨hns, hnf⟩ := not_terminal_split h0
      rw [waitGo_succ_cont snap cb f attempt hns hnf]
      have hpre' : ∀ j, j < f → isTerminalStatus (snap (attempt + 1 + j)) = false := by
        intro j hj
        have := hpre (j + 1) (by omega)
        rwa [show attempt + (j + 1) = attempt + 1 + j from by omega] at this
      obtain ⟨iho, ihp⟩ := ih (attempt + 1) hpre'
      exact ⟨iho, by rw [ihp]⟩

/-- The callback never influences the outcome or the number of polls. -/
theorem waitGo_cb_independent {α β : Type} (snap : Nat → JObj)
    (cb : Option (JValue → Nat → α)) (cb' : Option (JValue → Nat → β)) :
    ∀ fuel attempt,
      (waitGo snap cb fuel attempt).outcome = (waitGo snap cb' fuel attempt).outcome ∧
      (waitGo snap cb fuel attempt).polls = (waitGo snap cb' fuel attempt).polls := by
  intro fuel
  induction fuel with
  | zero => intro attempt; exact ⟨rfl, rfl⟩
  | succ f ih =>
      intro attempt
      by_cases hs : isSuccessStatus (snap attempt) = true
      · rw [waitGo_succ_success snap cb f attempt hs,
          waitGo_succ_success snap cb' f attempt hs]
        exact ⟨rfl, rfl⟩
      · have hns : isSuccessStatus (snap attempt) = false := by
          simpa using hs
        by_cases hf : isFailedStatus (snap attempt) = true
        · rw [waitGo_succ_failed snap cb f attempt hns hf,
            waitGo_succ_failed snap cb' f attempt hns hf]
          exact ⟨rfl, rfl⟩
        · have hnf : isFailedStatus (snap attempt) = false := by
            simpa using hf
          rw [waitGo_succ_cont snap cb f attempt hns hnf,
            waitGo_succ_cont snap cb' f attempt hns hnf]
          obtain ⟨iho, ihp⟩ := ih (attempt + 1)
          exact ⟨iho, by rw [ihp]⟩

/-- With a callback supplied, the recorded applications are exactly one
per performed poll, on the raw status value and the 1-based attempt
index. -/
theorem waitGo_cbTrace {α : Type} (snap : Nat → JObj) (f : JValue → Nat → α) :
    ∀ fuel attempt,
      (waitGo snap (some f) fuel attempt).cbTrace =
        (List.range (waitGo snap (some f) fuel attempt).polls).map
          (fun j => f (pyGet (snap (attempt + j)) "status") (attempt + j + 1)) := by
  intro fuel
  induction fuel with
  | zero => intro attempt; rfl
  | succ fl ih =>
      intro attempt
      by_cases hs : isSuccessStatus (snap attempt) = true
      · rw [waitGo_succ_success snap (some f) fl attempt hs,
          show List.range 1 = [0] from rfl]
        simp [cbApp]
      · have hns : isSuccessStatus (snap attempt) = false := by
          simpa using hs
        by_cases hf : isFailedStatus (snap attempt) = true
        · rw [waitGo_succ_failed snap (some f) fl attempt hns hf,
            show List.range 1 = [0] from rfl]
          simp [cbApp]
        · have hnf : isFailedStatus (snap attempt) = false := by
            simpa using hf
          rw [waitGo_succ_cont snap (some f) fl attempt hns hnf]
          simp only [List.range_succ_eq_map, List.map_cons, List.map_map]
          refine ?_
          show cbApp (some f) (snap attempt) attempt ++
              (waitGo snap (some f) fl (attempt + 1)).cbTrace = _
          rw [ih (attempt + 1)]
          simp only [cbApp, Nat.add_zero, List.singleton_append]
          refine congrArg₂ List.cons rfl ?_
          refine List.map_congr_left ?_
          intro j _
          simp only [Function.comp_apply]
          rw [show attempt + Nat.succ j = attempt + 1 + j from by omega]

/-! ## Claim theorems -/

/-- Claim C1: when every attempt hits a 5xx response or a
timeout/connection error, `_make_request` performs exactly
`max_retries` HTTP attempts, sleeps a strictly increasing backoff delay
in each of the `max_retries - 1` gaps between successive attempts, and
finally re-raises the last encountered error. -/
theorem claim1_submit_retries_transient (m : Nat) (resp : Nat → AttemptResult)
    (hm : 1 ≤ m) (htr : ∀ i, i < m → transientB (resp i) = true) :
    (makeRequest m resp).requests = m ∧
    (makeRequest m resp).sleeps.length = m - 1 ∧
    List.Chain' (· < ·) (makeRequest m resp).sleeps ∧
    ∀ e, attemptErr (resp (m - 1)) = some e →
      (makeRequest m resp).outcome = ReqOutcome.raised e := by
  have hr : ∀ j, j < m → retriedB (resp (0 + j)) = true := by
    intro j hj
    have := transientB_retried (htr j hj)
    simpa using this
  obtain ⟨h1, h2, h3, _, _, h6⟩ := mkReqGo_retried resp m m 0 none (by omega) hr
  refine ⟨h1, h2, h3, ?_⟩
  intro e he
  refine h6 (m - 1) e (by omega) ?_
  rwa [Nat.zero_add]

/-- Witness for claim C1: `max_retries = 3`, every attempt times out. -/
theorem claim1_witness :
    (1 ≤ 3 ∧ ∀ i, i < 3 → transientB (respAllTimeout i) = true) ∧
    ((makeRequest 3 respAllTimeout).requests = 3 ∧
     (makeRequest 3 respAllTimeout).sleeps.length = 3 - 1 ∧
     List.Chain' (· < ·) (makeRequest 3 respAllTimeout).sleeps ∧
     ∀ e, attemptErr (respAllTimeout (3 - 1)) = some e →
       (makeRequest 3 respAllTimeout).outcome = ReqOutcome.raised e) :=
  ⟨⟨by norm_num, fun i _ => rfl⟩,
    claim1_submit_retries_transient 3 respAllTimeout (by norm_num) (fun i _ => rfl)⟩

/-- Claim C2: a non-429 4xx response makes `_make_request` re-raise at
once: attempt `k` is the last request issued (`k + 1` requests in
total), and no sleep follows it (only the `k` earlier backoff sleeps
ever happen). -/
theorem claim2_client_error_no_retry (m k s : Nat) (ra : Option Nat)
    (resp : Nat → AttemptResult)
    (hk : k < m)
    (hr : ∀ j, j < k → retriedB (resp j) = true)
    (he : resp k = .exn (.http s ra))
    (h4 : 400 ≤ s) (h5 : s < 500) (h429 : s ≠ 429) :
    (makeRequest m resp).outcome = ReqOutcome.raised (.http s ra) ∧
    (makeRequest m resp).requests = k + 1 ∧
    (makeRequest m resp).sleeps.length = k := by
  have hce : isClientErr (ReqErr.http s ra) = true := by
    simp only [isClientErr, Bool.and_eq_true, decide_eq_true_eq]
    exact ⟨⟨h4, h5⟩, h429⟩
  have hr0 : ∀ j, j < k → retriedB (resp (0 + j)) = true := by
    intro j hj
    simpa using hr j hj
  have he0 : resp (0 + k) = .exn (.http s ra) := by simpa using he
  exact mkReqGo_client resp m (.http s ra) hce k m 0 none hk (by omega) hr0 he0

/-- Witness for claim C2: a timeout, then a 404 on the second attempt
of three. -/
theorem claim2_witness :
    (1 < 3 ∧ (∀ j, j < 1 → retriedB (respClientErr j) = true) ∧
      respClientErr 1 = .exn (.http 404 none) ∧
      400 ≤ 404 ∧ 404 < 500 ∧ 404 ≠ 429) ∧
    ((makeRequest 3 respClientErr).outcome = ReqOutcome.raised (.http 404 none) ∧
     (makeRequest 3 respClientErr).requests = 1 + 1 ∧
     (makeRequest 3 respClientErr).sleeps.length = 1) :=
  ⟨⟨by norm_num, by decide, rfl, by norm_num, by norm_num, by norm_num⟩,
    claim2_client_error_no_retry 3 1 404 none respClientErr (by norm_num)
      (by decide) rfl (by norm_num) (by norm_num) (by norm_num)⟩

/-- Claim C3 is false for `ImgGoClient._make_request`: a 429 response
carrying `Retry-After: 60` is followed by another attempt after a sleep
of only 0.5 seconds — not at least 60. -/
theorem claim3_counterexample_retryAfter_ignored :
    (makeRequest 3 resp429).requests = 2 ∧
    (makeRequest 3 resp429).sleeps = [1 / 2] ∧
    ¬ ((60 : ℚ) ≤ 1 / 2) := by
  refine ⟨rfl, ?_, by norm_num⟩
  norm_num [makeRequest, mkReqGo, resp429, backoff, isClientErr]

/-- Claim C3 (amended): `upload_with_retry` in error-handling.py does
honour `Retry-After`: when attempt `k` (reached after `k` retried
attempts) gets a 429 with hint `ra` and budget remains, the sleep
between attempts `k` and `k + 1` is exactly `ra.getD 60` seconds
(hence at least the hint) and attempt `k + 1` is issued. -/
theorem claim3_amended_upload_honors_retryAfter
    (m k : Nat) (att : Nat → UpAttempt) (ra : Option Nat) (body : JObj)
    (hk : k + 1 < m)
    (hr : ∀ j, j < k → upRetryB (att j) = true)
    (h429 : att k = .resp 429 ra body) :
    (uploadWithRetry m att).sleeps.get? k = some (ra.getD 60) ∧
    k + 2 ≤ (uploadWithRetry m att).requests := by
  have hr0 : ∀ j, j < k → upRetryB (att (0 + j)) = true := by
    intro j hj
    simpa using hr j hj
  have h0 : att (0 + k) = .resp 429 ra body := by simpa using h429
  exact uploadGo_retryAfter att m k m 0 hk (by omega) hr0 ra body h0

/-- Witness for the amended claim C3: first attempt hits a 429 with
`Retry-After: 7` among three allowed attempts. -/
theorem claim3_witness :
    (0 + 1 < 3 ∧ att429 0 = .resp 429 (some 7) []) ∧
    ((uploadWithRetry 3 att429).sleeps.get? 0 = some ((some 7).getD 60) ∧
     0 + 2 ≤ (uploadWithRetry 3 att429).requests) :=
  ⟨⟨by norm_num, rfl⟩,
    claim3_amended_upload_honors_retryAfter 3 0 att429 (some 7) [] (by norm_num)
      (fun j hj => absurd hj (Nat.not_lt_zero j)) rfl⟩

/-- Claim C4 is violated by the code: the distinct image paths
`a/img.jpg` and `b/img.jpg`, submitted at the same timestamp with no
caller-supplied key, receive the SAME generated idempotency key,
because only the path stem (directory and extension stripped) enters
the key. -/
theorem claim4_key_collision :
    processImageKey "a/img.jpg" 1700000000 =
      processImageKey "b/img.jpg" 1700000000 ∧
    "a/img.jpg" ≠ "b/img.jpg" :=
  ⟨rfl, by decide⟩

/-- Claim C5 counterexample: a succeeded snapshot containing both a
`manifest` field (present, but the empty — falsy — object) and a
`result` field yields the `result` payload, not the `manifest` payload,
because the code uses Python `or`. -/
theorem claim5_counterexample_falsy_manifest :
    (waitForJob snapEmptyManifest 1 (none : Option (JValue → Nat → Unit))).outcome =
      WaitOutcome.success (JValue.obj [("total", JValue.num 42)]) ∧
    JValue.obj [("total", JValue.num 42)] ≠ JValue.obj [] := by
  refine ⟨rfl, ?_⟩
  intro h
  injection h with h2
  exact absurd h2 (List.cons_ne_nil _ _)

/-- Claim C5 (amended): when the first terminal snapshot has a
success-alias status and its `manifest` field holds a truthy
(non-empty) value, `wait_for_job` returns the `manifest` payload in
preference to `result`. -/
theorem claim5_amended_manifest_precedence {α : Type} (snap : Nat → JObj)
    (m i : Nat) (cb : Option (JValue → Nat → α))
    (hi : i < m)
    (hpre : ∀ j, j < i → isTerminalStatus (snap j) = false)
    (hs : isSuccessStatus (snap i) = true)
    (hman : truthy (pyGet (snap i) "manifest") = true) :
    (waitForJob snap m cb).outcome =
      WaitOutcome.success (pyGet (snap i) "manifest") := by
  have hpre0 : ∀ j, j < i → isTerminalStatus (snap (0 + j)) = false := by
    intro j hj
    simpa using hpre j hj
  have hs0 : isSuccessStatus (snap (0 + i)) = true := by simpa using hs
  have h := (waitGo_first_terminal snap cb i m 0 hi hpre0).1 hs0
  have hsp : successPayload (snap (0 + i)) = pyGet (snap i) "manifest" := by
    simp only [Nat.zero_add]
    unfold successPayload pyOr
    rw [hman]
    simp
  rw [hsp] at h
  exact h

/-- Witness for the amended claim C5: `processing`, then succeeded with
non-empty `manifest` and a `result` both present. -/
theorem claim5_witness :
    (1 < 2 ∧ (∀ j, j < 1 → isTerminalStatus (snapManifestW j) = false) ∧
      isSuccessStatus (snapManifestW 1) = true ∧
      truthy (pyGet (snapManifestW 1) "manifest") = true) ∧
    (waitForJob snapManifestW 2 (none : Option (JValue → Nat → Unit))).outcome =
      WaitOutcome.success (pyGet (snapManifestW 1) "manifest") :=
  ⟨⟨by norm_num, by decide, by decide, by decide⟩,
    claim5_amended_manifest_precedence snapManifestW 2 1 none (by norm_num)
      (by decide) (by decide) (by decide)⟩

/-- Claim C6: when the first terminal snapshot within the budget has
status `failed`, `wait_for_job` raises the job-failure error carrying
the server-provided message — and that error is not the timeout
error. -/
theorem claim6_job_failure {α : Type} (snap : Nat → JObj) (m i : Nat)
    (msg : JValue) (cb : Option (JValue → Nat → α))
    (hi : i < m)
    (hpre : ∀ j, j < i → isTerminalStatus (snap j) = false)
    (hf : isFailedStatus (snap i) = true)
    (herr : (snap i).lookup "error" = some msg) :
    (waitForJob snap m cb).outcome = WaitOutcome.jobFailed msg ∧
    (waitForJob snap m cb).outcome ≠ WaitOutcome.timedOut := by
  have hpre0 : ∀ j, j < i → isTerminalStatus (snap (0 + j)) = false := by
    intro j hj
    simpa using hpre j hj
  have hf0 : isFailedStatus (snap (0 + i)) = true := by simpa using hf
  have h := (waitGo_first_terminal snap cb i m 0 hi hpre0).2.1 hf0
  have hmsg : failError (snap (0 + i)) = msg := by
    simp only [Nat.zero_add]
    unfold failError pyGetD
    rw [herr]
    rfl
  rw [hmsg] at h
  exact ⟨h, fun hc => WaitOutcome.noConfusion (h.symm.trans hc)⟩

/-- Witness for claim C6: `queued`, then `failed` with error message
`bad image`, within a budget of three attempts. -/
theorem claim6_witness :
    (1 < 3 ∧ (∀ j, j < 1 → isTerminalStatus (snapFailedW j) = false) ∧
      isFailedStatus (snapFailedW 1) = true ∧
      (snapFailedW 1).lookup "error" = some (JValue.str "bad image")) ∧
    ((waitForJob snapFailedW 3 (none : Option (JValue → Nat → Unit))).outcome =
        WaitOutcome.jobFailed (JValue.str "bad image") ∧
     (waitForJob snapFailedW 3 (none : Option (JValue → Nat → Unit))).outcome ≠
        WaitOutcome.timedOut) :=
  ⟨⟨by norm_num, by decide, by decide, rfl⟩,
    claim6_job_failure snapFailedW 3 1 (JValue.str "bad image") none
      (by norm_num) (by decide) (by decide) rfl⟩

/-- Claim C7: when no snapshot among the `max_attempts` polled ones is
terminal, `wait_for_job` performs exactly `max_attempts` polls and
raises the timeout error — never the job-failure error. -/
theorem claim7_poll_timeout {α : Type} (snap : Nat → JObj) (m : Nat)
    (cb : Option (JValue → Nat → α))
    (hpre : ∀ j, j < m → isTerminalStatus (snap j) = false) :
    (waitForJob snap m cb).outcome = WaitOutcome.timedOut ∧
    (waitForJob snap m cb).polls = m ∧
    ∀ e, (waitForJob snap m cb).outcome ≠ WaitOutcome.jobFailed e := by
  have hpre0 : ∀ j, j < m → isTerminalStatus (snap (0 + j)) = false := by
    intro j hj
    simpa using hpre j hj
  obtain ⟨ho, hp⟩ := waitGo_no_terminal snap cb m 0 hpre0
  exact ⟨ho, hp, fun e hc => WaitOutcome.noConfusion (ho.symm.trans hc)⟩

/-- Witness for claim C7: three polls, all `processing`. -/
theorem claim7_witness :
    (∀ j, j < 3 → isTerminalStatus (snapProcessing j) = false) ∧
    ((waitForJob snapProcessing 3 (none : Option (JValue → Nat → Unit))).outcome =
        WaitOutcome.timedOut ∧
     (waitForJob snapProcessing 3 (none : Option (JValue → Nat → Unit))).polls = 3 ∧
     ∀ e, (waitForJob snapProcessing 3 (none : Option (JValue → Nat → Unit))).outcome ≠
        WaitOutcome.jobFailed e) :=
  ⟨fun _ _ => rfl, claim7_poll_timeout snapProcessing 3 none (fun _ _ => rfl)⟩

/-- Claim C8: both `completed` and `succeeded` are accepted as terminal
success: the first snapshot bearing either status alias makes
`wait_for_job` return the success payload, after exactly that many
polls. -/
theorem claim8_success_aliases {α : Type} (snap : Nat → JObj) (m i : Nat)
    (cb : Option (JValue → Nat → α))
    (hi : i < m)
    (hpre : ∀ j, j < i → isTerminalStatus (snap j) = false)
    (hs : pyGet (snap i) "status" = .str "completed" ∨
          pyGet (snap i) "status" = .str "succeeded") :
    (waitForJob snap m cb).outcome =
      WaitOutcome.success (successPayload (snap i)) ∧
    (waitForJob snap m cb).polls = i + 1 := by
  have hsb : isSuccessStatus (snap i) = true := isSuccessStatus_of_alias hs
  have hpre0 : ∀ j, j < i → isTerminalStatus (snap (0 + j)) = false := by
    intro j hj
    simpa using hpre j hj
  have hs0 : isSuccessStatus (snap (0 + i)) = true := by simpa using hsb
  obtain ⟨h1, _, h3⟩ := waitGo_first_terminal snap cb i m 0 hi hpre0
  have ho := h1 hs0
  have hp := h3 (isTerminal_of_success hs0)
  constructor
  · simpa using ho
  · exact hp

/-- Witness for claim C8: `queued`, then the older alias `completed`. -/
theorem claim8_witness :
    (1 < 2 ∧ (∀ j, j < 1 → isTerminalStatus (snapCompletedW j) = false) ∧
      (pyGet (snapCompletedW 1) "status" = .str "completed" ∨
        pyGet (snapCompletedW 1) "status" = .str "succeeded")) ∧
    ((waitForJob snapCompletedW 2 (none : Option (JValue → Nat → Unit))).outcome =
        WaitOutcome.success (successPayload (snapCompletedW 1)) ∧
     (waitForJob snapCompletedW 2 (none : Option (JValue → Nat → Unit))).polls = 1 + 1) :=
  ⟨⟨by norm_num, by decide, Or.inl rfl⟩,
    claim8_success_aliases snapCompletedW 2 1 none (by norm_num) (by decide)
      (Or.inl rfl)⟩

/-- Claim C9: the progress callback is applied exactly once per polling
iteration, to the current raw status and the 1-based attempt index, and
it never influences control flow — two runs on the same snapshots with
any two callbacks (or none) have the same outcome and poll count. -/
theorem claim9_callback_transparent {α β : Type} (snap : Nat → JObj) (m : Nat)
    (cb : Option (JValue → Nat → α)) (cb2 : Option (JValue → Nat → β))
    (f : JValue → Nat → α) :
    ((waitForJob snap m cb).outcome = (waitForJob snap m cb2).outcome ∧
     (waitForJob snap m cb).polls = (waitForJob snap m cb2).polls) ∧
    (waitForJob snap m (some f)).cbTrace =
      (List.range (waitForJob snap m (some f)).polls).map
        (fun j => f (pyGet (snap j) "status") (j + 1)) := by
  constructor
  · exact waitGo_cb_independent snap cb cb2 m 0
  · have h := waitGo_cbTrace snap f m 0
    simpa using h

/-- Claim C10: constructed with `max_retries = 0`, `_make_request`
issues no HTTP request at all and reaches its final `raise
last_exception` with `last_exception` still `None`, so it raises `None`
(a `TypeError`) instead of an HTTP error — well-defined error
propagation needs `max_retries ≥ 1`. -/
theorem claim10_zero_retries_raise_none (resp : Nat → AttemptResult) :
    (makeRequest 0 resp).requests = 0 ∧
    (makeRequest 0 resp).outcome = ReqOutcome.raisedNone :=
  ⟨rfl, rfl⟩

end ImgGo

